import Mathlib

/-!
Verification of the Resonance scoring and ranking engine.

The definitions below are shallow embeddings of the TypeScript functions in
`lib/services/embedding/similarity.ts` (cosine similarity, `findMostSimilar`,
`normalizeToPercent`), `lib/services/scoring/topical-similarity.ts`
(`calculateTopicalSimilarity` and friends) and `lib/config/constants.ts`
(`SCORING_WEIGHTS`).  JavaScript numbers are modelled as real numbers,
thrown exceptions as `Except`, and `Math.round` as Mathlib's `round`
(both round halves up).  `Array.prototype.sort` with the comparator
`(a, b) => b.similarity - a.similarity` is a stable descending sort by
similarity, modelled by `List.insertionSort` with the total preorder
`simGE`; `Array.prototype.slice(0, limit)` is modelled by `jsSliceTo`,
including the JavaScript treatment of a negative end index.
-/

namespace Resonance

/-- The two exceptions thrown by `cosineSimilarity`: mismatched vector
lengths, and empty vectors. -/
inductive SimError where
  | dimensionMismatch (la lb : ℕ)
  | emptyVector
deriving DecidableEq

/-- `SimilarityResult` from `similarity.ts`: fields `sourceId` and
`similarity`. -/
structure SimilarityResult where
  sourceId : String
  similarity : ℝ

/-- An element of the `candidates` array of `findMostSimilar`: fields
`id` and `vector`. -/
structure Candidate where
  id : String
  vector : List ℝ

noncomputable section

/-- The dot-product loop of `cosineSimilarity`:
`dotProduct += vectorA[i] * vectorB[i]` for `i < vectorA.length`.  It is
only evaluated after the length guard, so both vectors have the same
length and `zipWith` covers exactly the loop range. -/
def dotProduct (a b : List ℝ) : ℝ :=
  (List.zipWith (fun x y => x * y) a b).sum

/-- The sum-of-squares accumulator of the magnitude loop in
`cosineSimilarity` (`magnitudeA += vectorA[i] * vectorA[i]`).  The loop
bound is `vectorA.length`, which equals the length of either vector once
the guard has passed. -/
def sumOfSquares (v : List ℝ) : ℝ :=
  (v.map fun x => x * x).sum

/-- `Math.sqrt` applied to the accumulated sum of squares. -/
def magnitude (v : List ℝ) : ℝ :=
  Real.sqrt (sumOfSquares v)

/-- The arithmetic part of `cosineSimilarity`, after the two guards: the
zero-magnitude check returning `0`, otherwise
`dotProduct / (magnitudeA * magnitudeB)`. -/
def cosineSimilarityValue (a b : List ℝ) : ℝ :=
  if magnitude a = 0 ∨ magnitude b = 0 then 0
  else dotProduct a b / (magnitude a * magnitude b)

/-- `cosineSimilarity(vectorA, vectorB)` from `similarity.ts`: throws on
mismatched lengths, then on empty vectors, otherwise returns the value. -/
def cosineSimilarity (vectorA vectorB : List ℝ) : Except SimError ℝ :=
  if vectorA.length ≠ vectorB.length then
    .error (.dimensionMismatch vectorA.length vectorB.length)
  else if vectorA.length = 0 then
    .error .emptyVector
  else
    .ok (cosineSimilarityValue vectorA vectorB)

/-- The `candidates.map(...)` step of `findMostSimilar`, building one
`SimilarityResult` per candidate; an exception thrown by
`cosineSimilarity` propagates out (left to right). -/
def mapSimilarities (queryVector : List ℝ) :
    List Candidate → Except SimError (List SimilarityResult)
  | [] => .ok []
  | c :: cs => do
    let s ← cosineSimilarity queryVector c.vector
    let rest ← mapSimilarities queryVector cs
    pure (⟨c.id, s⟩ :: rest)

/-- The ordering used by the comparator `(a, b) => b.similarity - a.similarity`:
`x` sorts no later than `y` exactly when `y.similarity ≤ x.similarity`. -/
def simGE (x y : SimilarityResult) : Prop :=
  y.similarity ≤ x.similarity

instance : DecidableRel simGE := fun x y => Real.decidableLE y.similarity x.similarity

instance : IsTotal SimilarityResult simGE :=
  ⟨fun x y => le_total y.similarity x.similarity⟩

instance : IsTrans SimilarityResult simGE :=
  ⟨fun _ _ _ h1 h2 => le_trans h2 h1⟩

/-- `Array.prototype.slice(0, limit)`: for `0 ≤ limit` it keeps the first
`limit` elements; a negative `limit` counts from the end of the array
(`max(length + limit, 0)` elements are kept). -/
def jsSliceTo (limit : ℤ) (l : List SimilarityResult) : List SimilarityResult :=
  if 0 ≤ limit then l.take limit.toNat
  else l.take (l.length - (-limit).toNat)

/-- `findMostSimilar(queryVector, candidates, limit = 10, threshold = 0)`
from `similarity.ts`: map each candidate to its similarity, keep results
with `similarity >= threshold`, sort descending by similarity (stable
JavaScript sort), and `slice(0, limit)`. -/
def findMostSimilar (queryVector : List ℝ) (candidates : List Candidate)
    (limit : ℤ := 10) (threshold : ℝ := 0) :
    Except SimError (List SimilarityResult) := do
  let results ← mapSimilarities queryVector candidates
  pure (jsSliceTo limit
    (List.insertionSort simGE (results.filter fun r => threshold ≤ r.similarity)))

/-- The clamp `Math.max(0, Math.min(1, similarity))` used by both
`normalizeToPercent` and `calculateTopicalSimilarity`. -/
def clamp01 (x : ℝ) : ℝ :=
  max 0 (min 1 x)

/-- `normalizeToPercent(similarity)` from `similarity.ts`: clamp to
`[0, 1]` and round `clamped * 100`. -/
def normalizeToPercent (similarity : ℝ) : ℤ :=
  round (clamp01 similarity * 100)

/-- `calculateTopicalSimilarity(similarity)` from
`topical-similarity.ts`: clamp to `[0, 1]`, apply the curve
`Math.pow(clamped, 0.8)`, and round `curved * 100`. -/
def calculateTopicalSimilarity (similarity : ℝ) : ℤ :=
  round (clamp01 similarity ^ (0.8 : ℝ) * 100)

/-- `calculateTopicalSimilarityFromEmbeddings`: cosine similarity of the
two embeddings fed into the scoring curve; an exception from
`cosineSimilarity` propagates. -/
def calculateTopicalSimilarityFromEmbeddings
    (userInterestsEmbedding postEmbedding : List ℝ) : Except SimError ℤ :=
  (cosineSimilarity userInterestsEmbedding postEmbedding).map calculateTopicalSimilarity

/-- The `postEmbeddings.map(...)` step of
`calculateAverageTopicalSimilarity`, scoring each post embedding against
the user embedding; exceptions propagate left to right. -/
def mapScores (userInterestsEmbedding : List ℝ) :
    List (List ℝ) → Except SimError (List ℤ)
  | [] => .ok []
  | p :: ps => do
    let s ← calculateTopicalSimilarityFromEmbeddings userInterestsEmbedding p
    let rest ← mapScores userInterestsEmbedding ps
    pure (s :: rest)

/-- `calculateAverageTopicalSimilarity(userInterestsEmbedding, postEmbeddings)`
from `topical-similarity.ts`: `0` for an empty list, otherwise the
per-post curved scores are summed and `Math.round(sum / scores.length)`
is returned. -/
def calculateAverageTopicalSimilarity (userInterestsEmbedding : List ℝ)
    (postEmbeddings : List (List ℝ)) : Except SimError ℤ :=
  if postEmbeddings.length = 0 then .ok 0
  else do
    let scores ← mapScores userInterestsEmbedding postEmbeddings
    pure (round (((scores.sum : ℤ) : ℝ) / (scores.length : ℝ)))

/-- `interpretTopicalSimilarity(score)` from `topical-similarity.ts`:
the six-band interpretation table. -/
def interpretTopicalSimilarity (score : ℤ) : String :=
  if 85 ≤ score then "Highly relevant"
  else if 70 ≤ score then "Very relevant"
  else if 55 ≤ score then "Moderately relevant"
  else if 40 ≤ score then "Somewhat relevant"
  else if 25 ≤ score then "Loosely relevant"
  else "Not relevant"

/-- The shape of `CONSTANTS.SCORING_WEIGHTS` in `constants.ts`. -/
structure ScoringWeights where
  ACTIVITY_FREQUENCY : ℝ
  FOLLOWER_RATIO : ℝ
  RECENT_POST_COUNT : ℝ
  TOPICAL_SIMILARITY : ℝ

/-- `CONSTANTS.SCORING_WEIGHTS`: activity frequency 0.30, follower ratio
0.25, recent post count 0.20, topical similarity 0.25. -/
def SCORING_WEIGHTS : ScoringWeights :=
  ⟨0.30, 0.25, 0.20, 0.25⟩

end

/-- Claim C9: the four configured scoring weights are each non-negative
and sum to exactly 1.0. -/
theorem scoring_weights_nonneg_sum_one :
    0 ≤ SCORING_WEIGHTS.ACTIVITY_FREQUENCY ∧
    0 ≤ SCORING_WEIGHTS.FOLLOWER_RATIO ∧
    0 ≤ SCORING_WEIGHTS.RECENT_POST_COUNT ∧
    0 ≤ SCORING_WEIGHTS.TOPICAL_SIMILARITY ∧
    SCORING_WEIGHTS.ACTIVITY_FREQUENCY + SCORING_WEIGHTS.FOLLOWER_RATIO +
      SCORING_WEIGHTS.RECENT_POST_COUNT + SCORING_WEIGHTS.TOPICAL_SIMILARITY = 1 := by
  norm_num [SCORING_WEIGHTS]

/-- Claim C6: on scores in `[0, 100]`, `interpretTopicalSimilarity` realises
the six bands with inclusive lower bounds 85, 70, 55, 40, 25, 0, and in
particular maps 84 to "Very relevant" and 85 to "Highly relevant". -/
theorem interpret_bands (score : ℤ) (h0 : 0 ≤ score) (h100 : score ≤ 100) :
    (85 ≤ score → interpretTopicalSimilarity score = "Highly relevant") ∧
    (70 ≤ score ∧ score < 85 → interpretTopicalSimilarity score = "Very relevant") ∧
    (55 ≤ score ∧ score < 70 → interpretTopicalSimilarity score = "Moderately relevant") ∧
    (40 ≤ score ∧ score < 55 → interpretTopicalSimilarity score = "Somewhat relevant") ∧
    (25 ≤ score ∧ score < 40 → interpretTopicalSimilarity score = "Loosely relevant") ∧
    (score < 25 → interpretTopicalSimilarity score = "Not relevant") ∧
    interpretTopicalSimilarity 84 = "Very relevant" ∧
    interpretTopicalSimilarity 85 = "Highly relevant" := by
  unfold interpretTopicalSimilarity
  refine ⟨?_, ?_, ?_, ?_, ?_, ?_, by decide, by decide⟩ <;>
    · intro h
      split_ifs <;> first | rfl | omega

/-- Claim C3: `cosineSimilarity` fails with `DimensionMismatch` exactly on
vectors of different lengths, with `EmptyVector` exactly on equal-length
empty vectors, and returns normally on every pair of equal-length
non-empty vectors. -/
theorem cosineSimilarity_error_iff (a b : List ℝ) :
    (a.length ≠ b.length →
      cosineSimilarity a b = .error (.dimensionMismatch a.length b.length)) ∧
    (a.length = b.length → a = [] → cosineSimilarity a b = .error .emptyVector) ∧
    (a.length = b.length → a ≠ [] → ∃ v, cosineSimilarity a b = .ok v) ∧
    ((∃ e, cosineSimilarity a b = .error e) ↔ a.length ≠ b.length ∨ a = []) := by
  have h1 : a.length ≠ b.length →
      cosineSimilarity a b = .error (.dimensionMismatch a.length b.length) := by
    intro h
    simp [cosineSimilarity, h]
  have h2 : a.length = b.length → a = [] → cosineSimilarity a b = .error .emptyVector := by
    intro hl ha
    subst ha
    simp [cosineSimilarity, ← hl]
  have h3 : a.length = b.length → a ≠ [] →
      cosineSimilarity a b = .ok (cosineSimilarityValue a b) := by
    intro hl ha
    have h0 : a.length ≠ 0 := fun h => ha (List.length_eq_zero.mp h)
    have hb : b ≠ [] := fun h => h0 (by rw [hl, h, List.length_nil])
    simp [cosineSimilarity, hl, h0, hb]
  refine ⟨h1, h2, fun hl ha => ⟨_, h3 hl ha⟩, ?_, ?_⟩
  · rintro ⟨e, he⟩
    by_contra hcon
    push_neg at hcon
    obtain ⟨hl, ha⟩ := hcon
    rw [h3 hl ha] at he
    exact Except.noConfusion he
  · rintro (h | h)
    · exact ⟨_, h1 h⟩
    · by_cases hl : a.length = b.length
      · exact ⟨_, h2 hl h⟩
      · exact ⟨_, h1 hl⟩

/-- Witness for `cosineSimilarity_error_iff`: a length-1 vector against an
empty vector raises `DimensionMismatch`. -/
theorem cosineSimilarity_error_iff_witness :
    cosineSimilarity [(1 : ℝ)] [] = .error (.dimensionMismatch 1 0) :=
  (cosineSimilarity_error_iff [(1 : ℝ)] []).1 (by simp)

/-- Claim C4: on equal-length non-empty vectors, a zero magnitude on either
side makes `cosineSimilarity` return `0` rather than fail. -/
theorem cosineSimilarity_zero_magnitude (a b : List ℝ)
    (hl : a.length = b.length) (ha : a ≠ [])
    (hmag : magnitude a = 0 ∨ magnitude b = 0) :
    cosineSimilarity a b = .ok 0 := by
  have h0 : a.length ≠ 0 := fun h => ha (List.length_eq_zero.mp h)
  have hb : b ≠ [] := fun h => h0 (by rw [hl, h, List.length_nil])
  have hv : cosineSimilarityValue a b = 0 := by
    unfold cosineSimilarityValue
    rw [if_pos hmag]
  simp [cosineSimilarity, hl, h0, hb, hv]

/-- Witness for `cosineSimilarity_zero_magnitude` on the zero vectors
`[0]` and `[0]`. -/
theorem cosineSimilarity_zero_magnitude_witness :
    [(0 : ℝ)].length = [(0 : ℝ)].length ∧ [(0 : ℝ)] ≠ [] ∧
      cosineSimilarity [(0 : ℝ)] [(0 : ℝ)] = .ok 0 :=
  ⟨rfl, by simp,
    cosineSimilarity_zero_magnitude _ _ rfl (by simp)
      (Or.inl (by simp [magnitude, sumOfSquares]))⟩

/-- Claim C8: `cosineSimilarity` is symmetric on equal-length non-empty
vectors. -/
theorem cosineSimilarity_symm (a b : List ℝ)
    (hl : a.length = b.length) (ha : a ≠ []) :
    cosineSimilarity a b = cosineSimilarity b a := by
  have hb : b ≠ [] := by
    intro h
    subst h
    exact ha (List.length_eq_zero.mp (hl.trans List.length_nil))
  have h0a : a.length ≠ 0 := fun h => ha (List.length_eq_zero.mp h)
  have h0b : b.length ≠ 0 := fun h => hb (List.length_eq_zero.mp h)
  have hdot : dotProduct a b = dotProduct b a := by
    unfold dotProduct
    rw [List.zipWith_comm_of_comm (fun x y => x * y) mul_comm]
  have hval : cosineSimilarityValue a b = cosineSimilarityValue b a := by
    unfold cosineSimilarityValue
    by_cases hz : magnitude a = 0 ∨ magnitude b = 0
    · rw [if_pos hz, if_pos (Or.symm hz)]
    · rw [if_neg hz, if_neg (fun h => hz (Or.symm h)), hdot,
        mul_comm (magnitude a) (magnitude b)]
  simp [cosineSimilarity, hl, h0a, h0b, hval]

/-- Witness for `cosineSimilarity_symm` on `[1, 0]` and `[0, 1]`. -/
theorem cosineSimilarity_symm_witness :
    [(1 : ℝ), 0].length = [(0 : ℝ), 1].length ∧ [(1 : ℝ), 0] ≠ [] ∧
      cosineSimilarity [(1 : ℝ), 0] [(0 : ℝ), 1] =
        cosineSimilarity [(0 : ℝ), 1] [(1 : ℝ), 0] :=
  ⟨rfl, by simp, cosineSimilarity_symm _ _ rfl (by simp)⟩

/-- The clamp is non-negative. -/
theorem clamp01_nonneg (x : ℝ) : 0 ≤ clamp01 x :=
  le_max_left 0 _

/-- The clamp is at most one. -/
theorem clamp01_le_one (x : ℝ) : clamp01 x ≤ 1 :=
  max_le zero_le_one (min_le_left 1 x)

/-- The clamp is monotone. -/
theorem clamp01_mono {x y : ℝ} (h : x ≤ y) : clamp01 x ≤ clamp01 y :=
  max_le_max (le_refl 0) (min_le_min (le_refl 1) h)

/-- Inputs at most zero clamp to zero. -/
theorem clamp01_of_nonpos {x : ℝ} (h : x ≤ 0) : clamp01 x = 0 :=
  max_eq_left (le_trans (min_le_right 1 x) h)

/-- Inputs at least one clamp to one. -/
theorem clamp01_of_one_le {x : ℝ} (h : 1 ≤ x) : clamp01 x = 1 := by
  unfold clamp01
  rw [min_eq_left h]
  exact max_eq_right zero_le_one

/-- Rounding is monotone. -/
theorem round_mono_of_le {x y : ℝ} (h : x ≤ y) : round x ≤ round y := by
  rw [round_eq, round_eq]
  exact Int.floor_mono (by linarith)

/-- The fifth power of `(1/2) ^ 0.8` is `1/16`. -/
theorem half_rpow_pow_five : (((1 : ℝ) / 2) ^ ((0.8 : ℝ))) ^ (5 : ℕ) = 1 / 16 := by
  rw [← Real.rpow_natCast (((1 : ℝ) / 2) ^ ((0.8 : ℝ))) 5,
    ← Real.rpow_mul (by norm_num : (0 : ℝ) ≤ 1 / 2)]
  have h4 : (0.8 : ℝ) * ((5 : ℕ) : ℝ) = ((4 : ℕ) : ℝ) := by norm_num
  rw [h4, Real.rpow_natCast]
  norm_num

/-- Lower bound `0.565 ≤ (1/2) ^ 0.8`. -/
theorem half_rpow_lb : (113 : ℝ) / 200 ≤ ((1 : ℝ) / 2) ^ ((0.8 : ℝ)) := by
  have hpos : (0 : ℝ) < ((1 : ℝ) / 2) ^ ((0.8 : ℝ)) :=
    Real.rpow_pos_of_pos (by norm_num) _
  have h5 : ((113 : ℝ) / 200) ^ (5 : ℕ) ≤ (((1 : ℝ) / 2) ^ ((0.8 : ℝ))) ^ (5 : ℕ) := by
    rw [half_rpow_pow_five]
    norm_num
  exact le_of_pow_le_pow_left₀ (by norm_num) (le_of_lt hpos) h5

/-- Upper bound `(1/2) ^ 0.8 < 0.575`. -/
theorem half_rpow_ub : ((1 : ℝ) / 2) ^ ((0.8 : ℝ)) < 23 / 40 := by
  have h5 : (((1 : ℝ) / 2) ^ ((0.8 : ℝ))) ^ (5 : ℕ) < ((23 : ℝ) / 40) ^ (5 : ℕ) := by
    rw [half_rpow_pow_five]
    norm_num
  exact lt_of_pow_lt_pow_left₀ 5 (by norm_num) h5

/-- The curved score of similarity one half is 57. -/
theorem calculateTopicalSimilarity_half : calculateTopicalSimilarity (0.5 : ℝ) = 57 := by
  have hc : clamp01 (0.5 : ℝ) = (1 : ℝ) / 2 := by
    unfold clamp01
    norm_num
  unfold calculateTopicalSimilarity
  rw [hc, round_eq, Int.floor_eq_iff]
  have lb := half_rpow_lb
  have ub := half_rpow_ub
  constructor
  · push_cast
    linarith
  · push_cast
    linarith

/-- The curved score of similarity one is 100. -/
theorem calculateTopicalSimilarity_one : calculateTopicalSimilarity 1 = 100 := by
  unfold calculateTopicalSimilarity
  rw [clamp01_of_one_le (le_refl 1), Real.one_rpow, one_mul]
  rw [show (100 : ℝ) = ((100 : ℤ) : ℝ) by norm_num, round_intCast]

/-- The curved score of similarity zero is 0. -/
theorem calculateTopicalSimilarity_zero : calculateTopicalSimilarity 0 = 0 := by
  unfold calculateTopicalSimilarity
  rw [clamp01_of_nonpos (le_refl 0), Real.zero_rpow (by norm_num : (0.8 : ℝ) ≠ 0),
    zero_mul, round_zero]

/-- Claim C2: the topical-similarity curve is `round(clamp(s)^0.8 * 100)`,
takes the values 100, 0 and 57 at inputs 1, 0 and 0.5, and is monotone
non-decreasing. -/
theorem calculateTopicalSimilarity_curve :
    (∀ s : ℝ, calculateTopicalSimilarity s = round (clamp01 s ^ (0.8 : ℝ) * 100)) ∧
    calculateTopicalSimilarity 1 = 100 ∧
    calculateTopicalSimilarity 0 = 0 ∧
    calculateTopicalSimilarity (0.5 : ℝ) = 57 ∧
    (∀ s t : ℝ, s ≤ t → calculateTopicalSimilarity s ≤ calculateTopicalSimilarity t) := by
  refine ⟨fun s => rfl, calculateTopicalSimilarity_one, calculateTopicalSimilarity_zero,
    calculateTopicalSimilarity_half, fun s t hst => ?_⟩
  unfold calculateTopicalSimilarity
  have h1 : clamp01 s ^ (0.8 : ℝ) ≤ clamp01 t ^ (0.8 : ℝ) :=
    Real.rpow_le_rpow (clamp01_nonneg s) (clamp01_mono hst) (by norm_num)
  exact round_mono_of_le (by linarith)

/-- Witness for `calculateTopicalSimilarity_curve`: monotonicity applied at
`0.25 ≤ 0.75`. -/
theorem calculateTopicalSimilarity_curve_witness :
    (0.25 : ℝ) ≤ 0.75 ∧
      calculateTopicalSimilarity (0.25 : ℝ) ≤ calculateTopicalSimilarity (0.75 : ℝ) :=
  ⟨by norm_num, calculateTopicalSimilarity_curve.2.2.2.2 0.25 0.75 (by norm_num)⟩

/-- Claim C10: `normalizeToPercent` rounds the clamped similarity times 100,
stays in `[0, 100]`, clamps out-of-range inputs silently, and applies no
exponent curve: it maps 0.5 to 50 where the curved score is 57. -/
theorem normalizeToPercent_spec :
    (∀ s : ℝ, normalizeToPercent s = round (clamp01 s * 100)) ∧
    (∀ s : ℝ, 0 ≤ normalizeToPercent s ∧ normalizeToPercent s ≤ 100) ∧
    (∀ s : ℝ, s ≤ 0 → normalizeToPercent s = 0) ∧
    (∀ s : ℝ, 1 ≤ s → normalizeToPercent s = 100) ∧
    normalizeToPercent (0.5 : ℝ) = 50 ∧
    calculateTopicalSimilarity (0.5 : ℝ) = 57 := by
  have hint : ∀ z : ℤ, round ((z : ℝ)) = z := fun z => round_intCast z
  refine ⟨fun s => rfl, fun s => ⟨?_, ?_⟩, fun s hs => ?_, fun s hs => ?_, ?_,
    calculateTopicalSimilarity_half⟩
  · have h0 : round ((0 : ℝ)) ≤ round (clamp01 s * 100) :=
      round_mono_of_le (by have := clamp01_nonneg s; linarith)
    rw [round_zero] at h0
    exact h0
  · have h100 : round (clamp01 s * 100) ≤ round ((100 : ℝ)) :=
      round_mono_of_le (by have := clamp01_le_one s; linarith)
    rw [show (100 : ℝ) = ((100 : ℤ) : ℝ) by norm_num, hint] at h100
    exact h100
  · unfold normalizeToPercent
    rw [clamp01_of_nonpos hs, zero_mul, round_zero]
  · unfold normalizeToPercent
    rw [clamp01_of_one_le hs, one_mul,
      show (100 : ℝ) = ((100 : ℤ) : ℝ) by norm_num, hint]
  · unfold normalizeToPercent
    rw [show clamp01 (0.5 : ℝ) = (1 : ℝ) / 2 by unfold clamp01; norm_num,
      show ((1 : ℝ) / 2) * 100 = ((50 : ℤ) : ℝ) by norm_num, hint]

/-- Witness for `normalizeToPercent_spec`: the clamping clause applied at
the out-of-range input `-1/2`. -/
theorem normalizeToPercent_spec_witness :
    (-(1 : ℝ) / 2) ≤ 0 ∧ normalizeToPercent (-(1 : ℝ) / 2) = 0 :=
  ⟨by norm_num, normalizeToPercent_spec.2.2.1 _ (by norm_num)⟩

/-- Filtering an ordered insert by a predicate the inserted element
satisfies, when every selected element of the list sorts no earlier than
the inserted one, prepends the inserted element. -/
theorem filter_orderedInsert_pos (p : SimilarityResult → Bool) (x : SimilarityResult)
    (l : List SimilarityResult) (hx : p x = true)
    (hp : ∀ y ∈ l, p y = true → simGE x y) :
    (l.orderedInsert simGE x).filter p = x :: l.filter p := by
  induction l with
  | nil => simp [hx]
  | cons y ys ih =>
    rw [List.orderedInsert]
    by_cases hxy : simGE x y
    · rw [if_pos hxy]
      simp [List.filter_cons, hx]
    · rw [if_neg hxy]
      have hpy : p y = false := by
        cases h : p y
        · rfl
        · exact absurd (hp y (by simp) h) hxy
      simp only [List.filter_cons, hpy, Bool.false_eq_true, if_false]
      exact ih fun z hz hpz => hp z (by simp [hz]) hpz

/-- Filtering an ordered insert by a predicate the inserted element fails
leaves the filtered list unchanged. -/
theorem filter_orderedInsert_neg (p : SimilarityResult → Bool) (x : SimilarityResult)
    (l : List SimilarityResult) (hx : p x = false) :
    (l.orderedInsert simGE x).filter p = l.filter p := by
  induction l with
  | nil => simp [hx]
  | cons y ys ih =>
    rw [List.orderedInsert]
    by_cases hxy : simGE x y
    · rw [if_pos hxy]
      simp [List.filter_cons, hx]
    · rw [if_neg hxy]
      simp [List.filter_cons, ih]

/-- Stability of the insertion sort used for `findMostSimilar`: filtering by
any predicate that only selects results of one common similarity value
commutes with sorting, so equal-similarity results keep their input
order. -/
theorem filter_insertionSort (p : SimilarityResult → Bool) (l : List SimilarityResult)
    (hp : ∀ x ∈ l, ∀ y ∈ l, p x = true → p y = true → x.similarity = y.similarity) :
    (List.insertionSort simGE l).filter p = l.filter p := by
  induction l with
  | nil => rfl
  | cons x xs ih =>
    rw [List.insertionSort]
    have ihx := ih fun a ha b hb hpa hpb => hp a (by simp [ha]) b (by simp [hb]) hpa hpb
    by_cases hx : p x = true
    · rw [filter_orderedInsert_pos p x _ hx ?later, ihx]
      · simp [List.filter_cons, hx]
      case later =>
        intro y hy hpy
        have hmem : y ∈ xs := ((List.perm_insertionSort simGE xs).mem_iff).mp hy
        exact le_of_eq (hp x (by simp) y (by simp [hmem]) hx hpy).symm
    · have hx' : p x = false := by
        cases h : p x
        · rfl
        · exact absurd h hx
      rw [filter_orderedInsert_neg p x _ hx', ihx]
      simp [List.filter_cons, hx']

/-- On candidates whose vectors match a non-empty query, the mapping step
of `findMostSimilar` succeeds and pairs every candidate id with its
cosine similarity value. -/
theorem mapSimilarities_ok (q : List ℝ) (cands : List Candidate)
    (hq : q ≠ []) (hlen : ∀ c ∈ cands, c.vector.length = q.length) :
    mapSimilarities q cands =
      .ok (cands.map fun c => (⟨c.id, cosineSimilarityValue q c.vector⟩ : SimilarityResult)) := by
  induction cands with
  | nil => rfl
  | cons c cs ih =>
    have hq0 : q.length ≠ 0 := fun h => hq (List.length_eq_zero.mp h)
    have h0 : c.vector.length ≠ 0 := by
      rw [hlen c (by simp)]
      exact hq0
    have hcv : c.vector ≠ [] := fun h => h0 (by simp [h])
    have hcos : cosineSimilarity q c.vector = .ok (cosineSimilarityValue q c.vector) := by
      have hl : q.length = c.vector.length := (hlen c (by simp)).symm
      simp [cosineSimilarity, hl, h0, hq, hcv]
    simp only [mapSimilarities]
    rw [hcos, ih fun d hd => hlen d (by simp [hd])]
    rfl

/-- Evaluation of `findMostSimilar` on matching non-empty vectors: map,
filter by threshold, stable sort, slice. -/
theorem findMostSimilar_eval (queryVector : List ℝ) (candidates : List Candidate)
    (limit : ℤ) (threshold : ℝ) (hq : queryVector ≠ [])
    (hlen : ∀ c ∈ candidates, c.vector.length = queryVector.length) :
    findMostSimilar queryVector candidates limit threshold =
      .ok (jsSliceTo limit (List.insertionSort simGE
        ((candidates.map fun c =>
            (⟨c.id, cosineSimilarityValue queryVector c.vector⟩ : SimilarityResult)).filter
          fun r => threshold ≤ r.similarity))) := by
  unfold findMostSimilar
  rw [mapSimilarities_ok queryVector candidates hq hlen]
  rfl

/-- Claim C1 (amended to non-negative limits): with a non-empty query,
matching candidate vectors and `0 ≤ limit`, `findMostSimilar` succeeds,
returns at most `limit` results, only results at or above the threshold,
sorted descending by similarity, and equal-similarity results keep their
original candidate order. -/
theorem findMostSimilar_spec (queryVector : List ℝ) (candidates : List Candidate)
    (limit : ℤ) (threshold : ℝ) (hq : queryVector ≠ [])
    (hlen : ∀ c ∈ candidates, c.vector.length = queryVector.length)
    (hlim : 0 ≤ limit) :
    ∃ out : List SimilarityResult,
      findMostSimilar queryVector candidates limit threshold = .ok out ∧
      (out.length : ℤ) ≤ limit ∧
      (∀ r ∈ out, threshold ≤ r.similarity) ∧
      out.Pairwise (fun x y => y.similarity ≤ x.similarity) ∧
      (∀ p : SimilarityResult → Bool,
        (∀ x y, p x = true → p y = true → x.similarity = y.similarity) →
        List.Sublist (out.filter p)
          (((candidates.map fun c =>
              (⟨c.id, cosineSimilarityValue queryVector c.vector⟩ : SimilarityResult)).filter
            fun r => threshold ≤ r.similarity).filter p)) := by
  have heval := findMostSimilar_eval queryVector candidates limit threshold hq hlen
  refine ⟨jsSliceTo limit (List.insertionSort simGE
    ((candidates.map fun c =>
        (⟨c.id, cosineSimilarityValue queryVector c.vector⟩ : SimilarityResult)).filter
      fun r => threshold ≤ r.similarity)), heval, ?_, ?_, ?_, ?_⟩
  · have htake : jsSliceTo limit (List.insertionSort simGE
        ((candidates.map fun c =>
            (⟨c.id, cosineSimilarityValue queryVector c.vector⟩ : SimilarityResult)).filter
          fun r => threshold ≤ r.similarity)) =
        (List.insertionSort simGE
          ((candidates.map fun c =>
              (⟨c.id, cosineSimilarityValue queryVector c.vector⟩ : SimilarityResult)).filter
            fun r => threshold ≤ r.similarity)).take limit.toNat := by
      unfold jsSliceTo
      rw [if_pos hlim]
    rw [htake]
    have hlen2 := List.length_take_le limit.toNat (List.insertionSort simGE
      ((candidates.map fun c =>
          (⟨c.id, cosineSimilarityValue queryVector c.vector⟩ : SimilarityResult)).filter
        fun r => threshold ≤ r.similarity))
    calc ((List.take limit.toNat _).length : ℤ) ≤ (limit.toNat : ℤ) := by exact_mod_cast hlen2
      _ = limit := Int.toNat_of_nonneg hlim
  · intro r hr
    have hr1 : r ∈ List.insertionSort simGE
        ((candidates.map fun c =>
            (⟨c.id, cosineSimilarityValue queryVector c.vector⟩ : SimilarityResult)).filter
          fun r => threshold ≤ r.similarity) := by
      unfold jsSliceTo at hr
      split_ifs at hr
      all_goals exact List.mem_of_mem_take hr
    have hr2 := ((List.perm_insertionSort simGE _).mem_iff).mp hr1
    exact of_decide_eq_true (List.mem_filter.mp hr2).2
  · have hs := List.sorted_insertionSort simGE
      ((candidates.map fun c =>
          (⟨c.id, cosineSimilarityValue queryVector c.vector⟩ : SimilarityResult)).filter
        fun r => threshold ≤ r.similarity)
    have hsub : List.Sublist (jsSliceTo limit (List.insertionSort simGE
        ((candidates.map fun c =>
            (⟨c.id, cosineSimilarityValue queryVector c.vector⟩ : SimilarityResult)).filter
          fun r => threshold ≤ r.similarity)))
        (List.insertionSort simGE
          ((candidates.map fun c =>
              (⟨c.id, cosineSimilarityValue queryVector c.vector⟩ : SimilarityResult)).filter
            fun r => threshold ≤ r.similarity)) := by
      unfold jsSliceTo
      split_ifs
      all_goals exact List.take_sublist _ _
    exact List.Pairwise.sublist hsub hs
  · intro p hp
    have hstable := filter_insertionSort p
      ((candidates.map fun c =>
          (⟨c.id, cosineSimilarityValue queryVector c.vector⟩ : SimilarityResult)).filter
        fun r => threshold ≤ r.similarity)
      (fun x _ y _ hx hy => hp x y hx hy)
    have hsub : List.Sublist (jsSliceTo limit (List.insertionSort simGE
        ((candidates.map fun c =>
            (⟨c.id, cosineSimilarityValue queryVector c.vector⟩ : SimilarityResult)).filter
          fun r => threshold ≤ r.similarity)))
        (List.insertionSort simGE
          ((candidates.map fun c =>
              (⟨c.id, cosineSimilarityValue queryVector c.vector⟩ : SimilarityResult)).filter
            fun r => threshold ≤ r.similarity)) := by
      unfold jsSliceTo
      split_ifs
      all_goals exact List.take_sublist _ _
    have := hsub.filter p
    rw [hstable] at this
    exact this

/-- Witness for `findMostSimilar_spec` at a one-candidate input. -/
theorem findMostSimilar_spec_witness :
    ∃ out : List SimilarityResult,
      findMostSimilar [(1 : ℝ)] [⟨"a", [1]⟩] 10 0 = .ok out ∧
      (out.length : ℤ) ≤ 10 ∧
      (∀ r ∈ out, (0 : ℝ) ≤ r.similarity) ∧
      out.Pairwise (fun x y => y.similarity ≤ x.similarity) ∧
      (∀ p : SimilarityResult → Bool,
        (∀ x y, p x = true → p y = true → x.similarity = y.similarity) →
        List.Sublist (out.filter p)
          ((([⟨"a", [1]⟩] : List Candidate).map (fun c =>
              (⟨c.id, cosineSimilarityValue [(1 : ℝ)] c.vector⟩ : SimilarityResult))
            |>.filter fun r => (0 : ℝ) ≤ r.similarity).filter p)) :=
  findMostSimilar_spec [(1 : ℝ)] [⟨"a", [1]⟩] 10 0 (by simp)
    (by
      intro c hc
      rw [List.mem_singleton] at hc
      subst hc
      rfl)
    (by norm_num)

/-- The magnitude of the singleton vector `[x]` with `0 < x` is `x`. -/
theorem magnitude_single (x : ℝ) (hx : 0 < x) : magnitude [x] = x := by
  have hs : sumOfSquares [x] = x * x := by simp [sumOfSquares]
  rw [magnitude, hs, Real.sqrt_mul_self (le_of_lt hx)]

/-- The cosine similarity value of a positive singleton vector with itself
is one. -/
theorem cosSimValue_self_single (x : ℝ) (hx : 0 < x) :
    cosineSimilarityValue [x] [x] = 1 := by
  have hm := magnitude_single x hx
  unfold cosineSimilarityValue
  rw [hm, if_neg (by simp [hx.ne'])]
  have hd : dotProduct [x] [x] = x * x := by simp [dotProduct]
  rw [hd, div_self (mul_ne_zero hx.ne' hx.ne')]

/-- The magnitude of a two-dimensional vector. -/
theorem magnitude_pair (x y : ℝ) : magnitude [x, y] = Real.sqrt (x * x + y * y) := by
  simp [magnitude, sumOfSquares]

/-- The cosine similarity value of the unit vector `[1, 0]` with itself. -/
theorem cosSimValue_unit_same : cosineSimilarityValue [(1 : ℝ), 0] [(1 : ℝ), 0] = 1 := by
  have hm : magnitude [(1 : ℝ), 0] = 1 := by
    rw [magnitude_pair]
    norm_num
  unfold cosineSimilarityValue
  rw [hm, if_neg (by norm_num)]
  have hd : dotProduct [(1 : ℝ), 0] [(1 : ℝ), 0] = 1 := by
    norm_num [dotProduct]
  rw [hd]
  norm_num

/-- The cosine similarity value of the orthogonal unit vectors `[1, 0]`
and `[0, 1]`. -/
theorem cosSimValue_unit_orth : cosineSimilarityValue [(1 : ℝ), 0] [(0 : ℝ), 1] = 0 := by
  have hm1 : magnitude [(1 : ℝ), 0] = 1 := by
    rw [magnitude_pair]
    norm_num
  have hm2 : magnitude [(0 : ℝ), 1] = 1 := by
    rw [magnitude_pair]
    norm_num
  unfold cosineSimilarityValue
  rw [hm1, hm2, if_neg (by norm_num)]
  have hd : dotProduct [(1 : ℝ), 0] [(0 : ℝ), 1] = 0 := by
    norm_num [dotProduct]
  rw [hd]
  norm_num

/-- Evaluation of `findMostSimilar` on two identical positive singleton
candidates with limit `-1`: the JavaScript slice keeps all but the last
result, so the output is the first candidate alone, not the empty list. -/
theorem findMostSimilar_two_same (x : ℝ) (hx : 0 < x) (ida idb : String) :
    findMostSimilar [x] [⟨ida, [x]⟩, ⟨idb, [x]⟩] (-1) 0 = .ok [⟨ida, 1⟩] := by
  rw [findMostSimilar_eval [x] [⟨ida, [x]⟩, ⟨idb, [x]⟩] (-1) 0 (by simp) ?hlen]
  case hlen =>
    intro c hc
    fin_cases hc <;> rfl
  have hv := cosSimValue_self_single x hx
  norm_num [hv, simGE, jsSliceTo, List.filter_cons, List.insertionSort, List.orderedInsert]

/-- Counterexample for claim C1 as stated for every limit: at limit `-1`
the returned sequence has length 1, which is not at most the limit. -/
theorem findMostSimilar_negative_limit_length_cex :
    ∃ out : List SimilarityResult,
      findMostSimilar [(1 : ℝ)] [⟨"a", [1]⟩, ⟨"b", [1]⟩] (-1) 0 = .ok out ∧
      ¬ ((out.length : ℤ) ≤ -1) :=
  ⟨[⟨"a", 1⟩], findMostSimilar_two_same 1 one_pos "a" "b", by norm_num⟩

/-- Counterexample for claim C5 as stated: at the non-positive limit `-1`
the returned sequence is not empty. -/
theorem findMostSimilar_negative_limit_nonempty_cex :
    findMostSimilar [(3 : ℝ)] [⟨"x", [3]⟩, ⟨"y", [3]⟩] (-1) 0 = .ok [⟨"x", 1⟩] ∧
      ([⟨"x", (1 : ℝ)⟩] : List SimilarityResult) ≠ [] :=
  ⟨findMostSimilar_two_same 3 (by norm_num) "x" "y", by simp⟩

/-- Claim C5 (amended to limit zero): with matching non-empty vectors,
`findMostSimilar` with limit `0` returns the empty sequence without
raising an error; negative limits instead follow JavaScript slice
semantics and can return non-empty sequences. -/
theorem findMostSimilar_zero_limit (queryVector : List ℝ) (candidates : List Candidate)
    (threshold : ℝ) (hq : queryVector ≠ [])
    (hlen : ∀ c ∈ candidates, c.vector.length = queryVector.length) :
    findMostSimilar queryVector candidates 0 threshold = .ok [] := by
  rw [findMostSimilar_eval queryVector candidates 0 threshold hq hlen]
  unfold jsSliceTo
  rw [if_pos (le_refl 0)]
  rfl

/-- Witness for `findMostSimilar_zero_limit` at a one-candidate input. -/
theorem findMostSimilar_zero_limit_witness :
    findMostSimilar [(1 : ℝ)] [⟨"a", [1]⟩] 0 0 = .ok [] :=
  findMostSimilar_zero_limit _ _ _ (by simp)
    (by
      intro c hc
      rw [List.mem_singleton] at hc
      subst hc
      rfl)

/-- On post embeddings matching a non-empty user embedding, the mapping
step of `calculateAverageTopicalSimilarity` succeeds and produces each
post's curved score. -/
theorem mapScores_ok (u : List ℝ) (ps : List (List ℝ)) (hu : u ≠ [])
    (hlen : ∀ p ∈ ps, p.length = u.length) :
    mapScores u ps =
      .ok (ps.map fun p => calculateTopicalSimilarity (cosineSimilarityValue u p)) := by
  induction ps with
  | nil => rfl
  | cons p ps ih =>
    have hu0 : u.length ≠ 0 := fun h => hu (List.length_eq_zero.mp h)
    have h0 : p.length ≠ 0 := by
      rw [hlen p (by simp)]
      exact hu0
    have hp : p ≠ [] := fun h => h0 (by simp [h])
    have hcos : cosineSimilarity u p = .ok (cosineSimilarityValue u p) := by
      have hl : u.length = p.length := (hlen p (by simp)).symm
      simp [cosineSimilarity, hl, h0, hu, hp]
    have hfe : calculateTopicalSimilarityFromEmbeddings u p =
        .ok (calculateTopicalSimilarity (cosineSimilarityValue u p)) := by
      rw [calculateTopicalSimilarityFromEmbeddings, hcos]
      rfl
    simp only [mapScores]
    rw [hfe, ih fun q hq => hlen q (by simp [hq])]
    rfl

/-- Claim C7 (amended for rounding): on matching non-empty vectors,
`calculateAverageTopicalSimilarity` returns the rounded arithmetic mean
of the per-pair curved scores — the curve is applied to each pair's
cosine similarity first and the scores are then averaged — and returns 0
for the empty list. -/
theorem calculateAverageTopicalSimilarity_spec (u : List ℝ) (ps : List (List ℝ))
    (hu : u ≠ []) (hlen : ∀ p ∈ ps, p.length = u.length) :
    calculateAverageTopicalSimilarity u ps =
      .ok (if ps.length = 0 then 0
        else round ((((ps.map fun p =>
          calculateTopicalSimilarity (cosineSimilarityValue u p)).sum : ℤ) : ℝ) /
          (ps.length : ℝ))) := by
  unfold calculateAverageTopicalSimilarity
  by_cases hps : ps.length = 0
  · rw [if_pos hps, if_pos hps]
  · rw [if_neg hps, if_neg hps, mapScores_ok u ps hu hlen]
    show Except.ok (round
        ((((ps.map fun p => calculateTopicalSimilarity (cosineSimilarityValue u p)).sum : ℤ) : ℝ) /
          ((ps.map fun p => calculateTopicalSimilarity (cosineSimilarityValue u p)).length : ℝ))) =
      Except.ok (round ((((ps.map fun p =>
        calculateTopicalSimilarity (cosineSimilarityValue u p)).sum : ℤ) : ℝ) / (ps.length : ℝ)))
    rw [List.length_map]

/-- Witness for `calculateAverageTopicalSimilarity_spec` at one post. -/
theorem calculateAverageTopicalSimilarity_spec_witness :
    calculateAverageTopicalSimilarity [(1 : ℝ)] [[(1 : ℝ)]] =
      .ok (if ([[(1 : ℝ)]] : List (List ℝ)).length = 0 then 0
        else round ((((([[(1 : ℝ)]] : List (List ℝ)).map fun p =>
          calculateTopicalSimilarity (cosineSimilarityValue [(1 : ℝ)] p)).sum : ℤ) : ℝ) /
          (([[(1 : ℝ)]] : List (List ℝ)).length : ℝ))) :=
  calculateAverageTopicalSimilarity_spec [(1 : ℝ)] [[(1 : ℝ)]] (by simp)
    (by
      intro p hp
      rw [List.mem_singleton] at hp
      subst hp
      rfl)

/-- Rounding `200 / 3` gives 67. -/
theorem round_two_hundred_thirds : round ((200 : ℝ) / 3) = 67 := by
  rw [round_eq, Int.floor_eq_iff]
  constructor
  · push_cast
    norm_num
  · push_cast
    norm_num

/-- Counterexample for claim C7 as stated: on three posts with curved
scores 100, 100 and 0 the function returns 67, which is not the
arithmetic mean `200/3` of the per-pair scores. -/
theorem calculateAverageTopicalSimilarity_cex :
    calculateAverageTopicalSimilarity [(1 : ℝ), 0] [[(1 : ℝ), 0], [(1 : ℝ), 0], [(0 : ℝ), 1]] =
      .ok 67 ∧ ((67 : ℝ)) ≠ ((100 : ℝ) + 100 + 0) / 3 := by
  constructor
  · unfold calculateAverageTopicalSimilarity
    rw [if_neg (by norm_num), mapScores_ok _ _ (by simp) ?hlen]
    case hlen =>
      intro p hp
      fin_cases hp <;> rfl
    simp only [List.map_cons, List.map_nil, cosSimValue_unit_same, cosSimValue_unit_orth,
      calculateTopicalSimilarity_one, calculateTopicalSimilarity_zero]
    norm_num [round_two_hundred_thirds]
  · norm_num

/-- Witness for `interpret_bands` at score 84. -/
theorem interpret_bands_witness :
    (0 : ℤ) ≤ 84 ∧ (84 : ℤ) ≤ 100 ∧ interpretTopicalSimilarity 84 = "Very relevant" :=
  ⟨by decide, by decide,
    (interpret_bands 84 (by decide) (by decide)).2.1 ⟨by decide, by decide⟩⟩

end Resonance
